import Mathlib

/-!
Shallow embedding of `src/research_server.py` (an MCP research-paper server).

The program exposes three tools:
* `search_papers topic max_results` — queries the arxiv collaborator, creates
  the topic directory, loads `papers_info.json` (empty on absence/corruption),
  overwrites one entry per hit, saves, and returns the hit ids in order;
* `extract_info paper_id` — scans every directory under the corpus root for a
  store containing the id, returning the record or a not-found message;
* `extract_text_paper paper_path` — extracts the text of each PDF page,
  concatenates non-empty page texts with a blank-line separator, and writes the
  result next to the source file.

Filesystem state is made explicit: each tool is a function from a state value
to a result paired with the successor state, so writes (and their absence) are
visible in the model.  The external collaborators (arxiv client, PyPDF2) are
modelled by their observable interface: a stream of hits that may raise while
being consumed, and a parse outcome of a PDF as a list of page texts.
-/

namespace ResearchServer

/-- One arxiv hit, as consumed by `search_papers` (source lines 54–63):
the short id and the five metadata fields read off the result object. -/
structure Paper where
  shortId : String
  title : String
  authors : List String
  summary : String
  pdfUrl : String
  publishedDate : String
deriving DecidableEq, Repr

/-- One stored entry of `papers_info.json` (source lines 56–62). -/
structure Record where
  title : String
  authors : List String
  summary : String
  pdf_url : String
  published : String
deriving DecidableEq, Repr

/-- A topic store: the JSON object of `papers_info.json`, keyed by paper id. -/
def Store : Type := String → Option Record

/-- The empty mapping, produced by the load fallback (source line 50). -/
def emptyStore : Store := fun _ => none

/-- Building the `paper_info` dict from a hit (source lines 56–62). -/
def mkRecord (p : Paper) : Record :=
  ⟨p.title, p.authors, p.summary, p.pdfUrl, p.publishedDate⟩

/-- The corpus root, `PAPER_DIR = "papers"` (source line 9). -/
def PAPER_DIR : String := "papers"

/-- Topic normalisation, `topic.lower().replace(" ", "_")` (source line 40).
Python's one-character `str.replace` is the character-wise substitution. -/
def normTopic (topic : String) : String :=
  ⟨(topic.data.map Char.toLower).map (fun c => if c = ' ' then '_' else c)⟩

/-- The topic directory, `os.path.join(PAPER_DIR, ...)` (source line 40). -/
def topicPath (topic : String) : String :=
  PAPER_DIR ++ "/" ++ normTopic topic

/-! ### State of `search_papers`

`search_papers` touches one topic directory and the single file
`papers_info.json` inside it, so its filesystem view is: does the directory
exist, and what does the file hold.  `file = none` models an absent file
(`FileNotFoundError`), `some none` a file whose content is not valid JSON
(`json.JSONDecodeError`), `some (some m)` a valid store. -/

structure SearchFS where
  dirExists : Bool
  file : Option (Option Store)

/-- The `client.results(search)` stream (source line 37).  The arxiv client
returns a lazy generator: `hits` are the results it yields, and `fails = true`
means it raises (network/upstream error) when consumed past them, which
happens inside the `for` loop at source line 54. -/
structure HitStream where
  hits : List Paper
  fails : Bool

/-- Loading the existing store (source lines 46–50): a missing or unparsable
file falls back to the empty mapping. -/
def loadStore (fs : SearchFS) : Store :=
  match fs.file with
  | some (some m) => m
  | _ => emptyStore

/-- One iteration of the hit loop: `papers_info[paper.get_short_id()] =
paper_info` (source line 63), last write wins. -/
def insertRecord (info : Store) (p : Paper) : Store :=
  fun k => if k = p.shortId then some (mkRecord p) else info k

/-- The hit loop (source lines 53–63): collect ids in order and overwrite the
corresponding entries. -/
def processHits (info : Store) : List Paper → List String × Store
  | [] => ([], info)
  | p :: rest =>
    let res := processHits (insertRecord info p) rest
    (p.shortId :: res.1, res.2)

/-- `search_papers` (source lines 15–71) on its topic directory.
`os.makedirs(path, exist_ok=True)` (line 41) and the load (lines 46–50) run
before the stream is consumed (line 54); the save (lines 66–67) runs only
after the loop finishes, so a stream failure propagates out of the loop with
the file untouched while the directory has already been created. -/
def search_papers (fs : SearchFS) (st : HitStream) :
    Except String (List String) × SearchFS :=
  let fs1 : SearchFS := ⟨true, fs.file⟩
  if st.fails then
    (.error "UpstreamFailure", fs1)
  else
    let info := loadStore fs1
    let res := processHits info st.hits
    (.ok res.1, ⟨true, some (some res.2)⟩)

/-! ### State of `extract_info`

`extract_info` reads the whole corpus root: a list of directory entries, each
possibly a directory, each directory possibly holding a `papers_info.json`
whose content parses or not. -/

/-- One entry of `os.listdir(PAPER_DIR)`: its name, whether it is a
directory, and (when a directory) the state of its `papers_info.json` —
`none` absent, `some none` unparsable, `some (some m)` a valid store. -/
structure Entry where
  name : String
  isDir : Bool
  file : Option (Option Store)

/-- The corpus root: whether the `papers` directory itself exists, and its
directory listing. -/
structure CorpusFS where
  rootExists : Bool
  entries : List Entry

/-- What `extract_info` returns on the non-raising paths: the JSON dump of a
found record, or the human-readable not-found message. -/
inductive ResolveOutput where
  | record (r : Record)
  | message (s : String)
deriving DecidableEq

/-- The not-found message (source line 99). -/
def notFoundMsg (pid : String) : String :=
  "There's no saved information related to paper " ++ pid ++ "."

/-- The per-entry test of the scan loop (source lines 87–94): a non-directory
entry is ignored, a directory without `papers_info.json` is skipped
(`os.path.isfile` false), an unparsable file is skipped (`JSONDecodeError`
caught at line 95), and a valid store answers with its entry for the id. -/
def entryLookup (e : Entry) (pid : String) : Option Record :=
  if e.isDir then
    match e.file with
    | some (some m) => m pid
    | _ => none
  else none

/-- The scan loop of `extract_info` (source lines 85–97): return the record
of the first listed store containing the id, `none` when the listing is
exhausted.  The state is threaded through so that writes would be visible;
every branch only reads. -/
def scanEntries (pid : String) : List Entry → CorpusFS → Option ResolveOutput × CorpusFS
  | [], fs => (none, fs)
  | e :: rest, fs =>
    match entryLookup e pid with
    | some r => (some (.record r), fs)
    | none => scanEntries pid rest fs

/-- `extract_info` (source lines 74–99).  `os.listdir(PAPER_DIR)` at line 85
raises `FileNotFoundError` when the corpus root does not exist; that
exception is not caught (the `try` at lines 90–97 only guards the per-file
open/parse), so it propagates as `.error`. -/
def extract_info (fs : CorpusFS) (pid : String) :
    Except String ResolveOutput × CorpusFS :=
  if fs.rootExists then
    match scanEntries pid fs.entries fs with
    | (some out, fs2) => (.ok out, fs2)
    | (none, fs2) => (.ok (.message (notFoundMsg pid)), fs2)
  else
    (.error "FileNotFoundError", fs)

/-! ### State of `extract_text_paper`

`extract_text_paper` touches one input path and its sibling `.txt` path. -/

/-- Filesystem view of `extract_text_paper`: the input path, whether
`os.path.isfile` holds for it, the PyPDF2 parse outcome (`none` models
`PdfReadError`, `some pages` the per-page `extract_text()` results, an empty
string standing for a page with no extractable text), and the content of the
sibling `.txt` file (`none` when absent). -/
structure PdfFS where
  path : String
  fileExists : Bool
  parse : Option (List String)
  outFile : Option String

/-- The stem of `os.path.splitext` (source line 141): the path up to its last
dot, the whole path when it has none.  (Directory components containing dots
are not treated specially; no claim depends on that edge case.) -/
def stemOf (p : String) : String :=
  if p.data.contains '.' then
    ⟨(((p.data.reverse.dropWhile (fun c => c ≠ '.')).drop 1)).reverse⟩
  else p

/-- The page loop (source lines 128–138): `total_text += page_text + "\n\n"`
for each page whose text is non-empty (Python truthiness of the string). -/
def joinPages (pages : List String) : String :=
  pages.foldl (fun acc t => if t = "" then acc else acc ++ (t ++ "\n\n")) ""

/-- `extract_text_paper` (source lines 102–152): missing file → `None` with
no write (lines 114–116); `PdfReadError` → `None` with no write (the write at
lines 144–145 is only reached after the whole page loop succeeds); otherwise
the concatenated text is written to the sibling `.txt` file and its path
returned. -/
def extract_text_paper (fs : PdfFS) : Option String × PdfFS :=
  if fs.fileExists then
    match fs.parse with
    | none => (none, fs)
    | some pages =>
      let total := joinPages pages
      let outPath := stemOf fs.path ++ ".txt"
      (some outPath, ⟨fs.path, fs.fileExists, fs.parse, some total⟩)
  else (none, fs)

/-! ### Spec-side definitions and sample values -/

/-- The last hit of the stream bearing a given id, if any. -/
def lastHitFor (hits : List Paper) (k : String) : Option Paper :=
  hits.reverse.find? (fun p => p.shortId == k)

/-- Formalisation of the spec sentence for one page: a page yielding text
contributes that text followed by exactly two newlines, a page yielding no
extractable text contributes nothing. -/
def specContribution (t : String) : String :=
  if t = "" then "" else t ++ "\n\n"

/-- Formalisation of the spec sentence for the whole document: the output is
the concatenation of the per-page contributions in page order. -/
def specConcat : List String → String
  | [] => ""
  | t :: rest => specContribution t ++ specConcat rest

/-- The text of page `k` in the spec's N-page scenario. -/
def pageText (k : Nat) : String := "Page " ++ toString k

/-- The page texts of the spec's N-page scenario, in page order. -/
def pagesUpTo (n : Nat) : List String :=
  (List.range n).map (fun i => pageText (i + 1))

/-- The spec's expected output, "Page 1\n\nPage 2\n\n...Page N\n\n". -/
def expectedOutput : Nat → String
  | 0 => ""
  | Nat.succ n => expectedOutput n ++ (pageText (n + 1) ++ "\n\n")

/-- A concrete hit, used by the witness theorems. -/
def samplePaper : Paper :=
  ⟨"2301.00001v1", "Quantum Widgets", ["Alice", "Bob"], "An abstract.",
    "http://arxiv.org/pdf/2301.00001v1", "2023-01-01"⟩

/-- A second concrete hit with a distinct id. -/
def samplePaper2 : Paper :=
  ⟨"2302.00002v1", "Classical Gadgets", ["Carol"], "Another abstract.",
    "http://arxiv.org/pdf/2302.00002v1", "2023-02-02"⟩

/-- A concrete stored record predating the sample searches. -/
def sampleRecord : Record :=
  ⟨"Old Title", ["Olga"], "Old abstract.", "http://arxiv.org/pdf/2005.00005v1",
    "2020-05-05"⟩

/-- A concrete store holding one previously stored id. -/
def sampleStore : Store :=
  fun k => if k = "2005.00005v1" then some sampleRecord else none

/-- A concrete corpus: one valid store, one stray non-directory entry, one
topic whose store file is unparsable. -/
def sampleCorpus : CorpusFS :=
  ⟨true, [⟨"quantum_computing", true, some (some sampleStore)⟩,
          ⟨"notes.txt", false, none⟩,
          ⟨"machine_learning", true, some none⟩]⟩

/-! ### Helper lemmas about the hit loop -/

theorem processHits_fst (info : Store) (hits : List Paper) :
    (processHits info hits).1 = hits.map Paper.shortId := by
  induction hits generalizing info with
  | nil => rfl
  | cons p rest ih => simp [processHits, ih]

theorem processHits_snd (info : Store) (hits : List Paper) (k : String) :
    (processHits info hits).2 k =
      match lastHitFor hits k with
      | some p => some (mkRecord p)
      | none => info k := by
  induction hits generalizing info with
  | nil => simp [processHits, lastHitFor]
  | cons p rest ih =>
    simp only [processHits, lastHitFor, List.reverse_cons, List.find?_append]
    rw [ih]
    simp only [lastHitFor]
    cases hfind : rest.reverse.find? (fun q => q.shortId == k) with
    | some q => simp [Option.or]
    | none =>
      simp only [Option.or_none, List.find?_cons, List.find?_nil, insertRecord]
      cases hpk : (p.shortId == k) with
      | true =>
        have : k = p.shortId := (beq_iff_eq.mp hpk).symm
        simp [this]
      | false =>
        have : ¬ k = p.shortId := fun h => by simp [h] at hpk
        simp [this]

theorem lastHitFor_eq_none (hits : List Paper) (k : String)
    (h : k ∉ hits.map Paper.shortId) : lastHitFor hits k = none := by
  apply List.find?_eq_none.mpr
  intro q hq hbeq
  exact h (List.mem_map.mpr ⟨q, List.mem_reverse.mp hq, beq_iff_eq.mp hbeq⟩)

theorem lastHitFor_isSome (hits : List Paper) (k : String)
    (h : k ∈ hits.map Paper.shortId) : ∃ p, lastHitFor hits k = some p := by
  obtain ⟨q, hq, hqk⟩ := List.mem_map.mp h
  have : (lastHitFor hits k).isSome = true :=
    List.find?_isSome.mpr ⟨q, List.mem_reverse.mpr hq, beq_iff_eq.mpr hqk⟩
  exact Option.isSome_iff_exists.mp this

theorem search_papers_ok (fs : SearchFS) (st : HitStream) (h : st.fails = false) :
    search_papers fs st =
      (.ok (st.hits.map Paper.shortId),
        ⟨true, some (some (processHits (loadStore fs) st.hits).2)⟩) := by
  simp only [search_papers, h, Bool.false_eq_true, if_false]
  rw [processHits_fst]
  rfl

/-! ### Helper lemmas about the resolver scan -/

theorem scanEntries_state (pid : String) (l : List Entry) (fs : CorpusFS) :
    (scanEntries pid l fs).2 = fs := by
  induction l with
  | nil => rfl
  | cons e rest ih =>
    simp only [scanEntries]
    cases entryLookup e pid with
    | some r => rfl
    | none => exact ih

theorem entryLookup_eq_none (e : Entry) (pid : String)
    (h : ∀ m : Store, e.file = some (some m) → m pid = none) :
    entryLookup e pid = none := by
  by_cases hd : e.isDir = true
  · cases hf : e.file with
    | none => simp [entryLookup, hd, hf]
    | some c =>
      cases c with
      | none => simp [entryLookup, hd, hf]
      | some m => simp [entryLookup, hd, hf, h m hf]
  · simp [entryLookup, hd]

theorem scanEntries_all_absent (pid : String) (l : List Entry) (fs : CorpusFS)
    (h : ∀ e ∈ l, ∀ m : Store, e.file = some (some m) → m pid = none) :
    (scanEntries pid l fs).1 = none := by
  induction l with
  | nil => rfl
  | cons e rest ih =>
    have hrest : ∀ e2 ∈ rest, ∀ m : Store, e2.file = some (some m) → m pid = none :=
      fun e2 he2 => h e2 (List.mem_cons_of_mem _ he2)
    simp only [scanEntries]
    rw [entryLookup_eq_none e pid (h e (List.mem_cons_self _ _))]
    exact ih hrest

/-! ### Helper lemmas about page concatenation -/

theorem joinPages_foldl (pages : List String) (a : String) :
    pages.foldl (fun acc t => if t = "" then acc else acc ++ (t ++ "\n\n")) a =
      a ++ specConcat pages := by
  induction pages generalizing a with
  | nil => simp [specConcat, String.append_empty]
  | cons t rest ih =>
    simp only [List.foldl_cons, specConcat]
    rw [ih]
    by_cases ht : t = ""
    · simp [ht, specContribution, String.empty_append]
    · simp only [ht, if_false, specContribution, String.append_assoc]

theorem joinPages_eq_specConcat (pages : List String) :
    joinPages pages = specConcat pages := by
  rw [joinPages, joinPages_foldl, String.empty_append]

theorem specConcat_append (l₁ l₂ : List String) :
    specConcat (l₁ ++ l₂) = specConcat l₁ ++ specConcat l₂ := by
  induction l₁ with
  | nil => simp [specConcat, String.empty_append]
  | cons t rest ih => simp [specConcat, ih, String.append_assoc]

theorem pageText_ne_empty (k : Nat) : pageText k ≠ "" := by
  intro h
  have hlen := congrArg String.length h
  rw [pageText, String.length_append] at hlen
  have h5 : ("Page " : String).length = 5 := rfl
  have h0 : ("" : String).length = 0 := rfl
  omega

theorem specConcat_pagesUpTo (n : Nat) :
    specConcat (pagesUpTo n) = expectedOutput n := by
  induction n with
  | zero => rfl
  | succ n ih =>
    have hsplit : pagesUpTo (n + 1) = pagesUpTo n ++ [pageText (n + 1)] := by
      simp [pagesUpTo, List.range_succ]
    rw [hsplit, specConcat_append, ih, expectedOutput]
    simp [specConcat, specContribution, pageText_ne_empty (n + 1), String.append_empty]

/-! ### Claim theorems -/

/-- C1: when the persisted store loads successfully and the collaborator
stream succeeds, the search's merge overwrites each id that reappears with
the record built from its last hit, leaves the record of every id not
re-fetched unchanged, and never removes a previously stored id. -/
theorem search_merge_last_write_wins
    (fs : SearchFS) (st : HitStream) (m : Store)
    (hload : fs.file = some (some m)) (hok : st.fails = false) :
    ∃ final : Store, (search_papers fs st).2.file = some (some final) ∧
      (∀ k p, lastHitFor st.hits k = some p → final k = some (mkRecord p)) ∧
      (∀ k, k ∉ st.hits.map Paper.shortId → final k = m k) ∧
      (∀ k, m k ≠ none → final k ≠ none) := by
  have hshape := search_papers_ok fs st hok
  have hm : loadStore fs = m := by simp [loadStore, hload]
  refine ⟨(processHits (loadStore fs) st.hits).2, by rw [hshape], ?_, ?_, ?_⟩
  · intro k p hp
    rw [processHits_snd, hp]
  · intro k hk
    rw [processHits_snd, lastHitFor_eq_none st.hits k hk, hm]
  · intro k hmk
    rw [processHits_snd]
    cases hl : lastHitFor st.hits k with
    | some p => simp
    | none =>
      rw [← hm] at hmk
      exact hmk

/-- Witness for C1 at a concrete store and a concrete one-hit stream. -/
theorem search_merge_last_write_wins_witness :
    ∃ final : Store,
      (search_papers ⟨true, some (some sampleStore)⟩
          ⟨[samplePaper], false⟩).2.file = some (some final) ∧
      (∀ k p, lastHitFor [samplePaper] k = some p → final k = some (mkRecord p)) ∧
      (∀ k, k ∉ [samplePaper].map Paper.shortId → final k = sampleStore k) ∧
      (∀ k, sampleStore k ≠ none → final k ≠ none) :=
  search_merge_last_write_wins ⟨true, some (some sampleStore)⟩
    ⟨[samplePaper], false⟩ sampleStore rfl rfl

/-- C3: loading a store whose persisted file is absent or whose content is
not valid structured data returns the empty mapping (the fallback at source
lines 49–50); the call completes normally. -/
theorem loadStore_absent_or_corrupt_empty (fs : SearchFS)
    (h : fs.file = none ∨ fs.file = some none) :
    loadStore fs = emptyStore := by
  rcases h with h | h <;> simp [loadStore, h]

/-- Witness for C3 at a concrete corrupt file. -/
theorem loadStore_absent_or_corrupt_empty_witness :
    ((⟨false, some none⟩ : SearchFS).file = none ∨
      (⟨false, some none⟩ : SearchFS).file = some none) ∧
    loadStore ⟨false, some none⟩ = emptyStore :=
  ⟨Or.inr rfl, loadStore_absent_or_corrupt_empty ⟨false, some none⟩ (Or.inr rfl)⟩

/-- C6: when the collaborator stream fails, the failure propagates to the
caller as an error and the topic's persisted store file is unchanged — the
save at source lines 66–67 only runs after the whole hit loop succeeds. -/
theorem search_upstream_failure_propagates (fs : SearchFS) (st : HitStream)
    (hf : st.fails = true) :
    (search_papers fs st).1 = .error "UpstreamFailure" ∧
    (search_papers fs st).2.file = fs.file := by
  simp [search_papers, hf]

/-- Witness for C6: a failing stream that already yielded a hit leaves a
concrete store file untouched. -/
theorem search_upstream_failure_propagates_witness :
    (⟨[samplePaper], true⟩ : HitStream).fails = true ∧
    (search_papers ⟨true, some (some sampleStore)⟩ ⟨[samplePaper], true⟩).1 =
      .error "UpstreamFailure" ∧
    (search_papers ⟨true, some (some sampleStore)⟩ ⟨[samplePaper], true⟩).2.file =
      (⟨true, some (some sampleStore)⟩ : SearchFS).file :=
  ⟨rfl,
    (search_upstream_failure_propagates ⟨true, some (some sampleStore)⟩
      ⟨[samplePaper], true⟩ rfl).1,
    (search_upstream_failure_propagates ⟨true, some (some sampleStore)⟩
      ⟨[samplePaper], true⟩ rfl).2⟩

/-- C7 counterexample: starting from a state where the topic directory is
absent, a search whose collaborator stream fails still creates the
directory — `os.makedirs` at source line 41 runs before the lazy result
stream is consumed by the loop at line 54, so the claimed lazy creation on
first successful search does not hold. -/
theorem search_failed_call_still_creates_dir :
    (⟨false, none⟩ : SearchFS).dirExists = false ∧
    (search_papers ⟨false, none⟩ ⟨[], true⟩).1 = .error "UpstreamFailure" ∧
    (search_papers ⟨false, none⟩ ⟨[], true⟩).2.dirExists = true :=
  ⟨rfl, rfl, rfl⟩

/-- C7 amended: the topic's storage directory is created (if absent) on
every search call, before any result is consumed — also on calls whose
collaborator fails; only the store file write is contingent on success. -/
theorem search_always_creates_dir (fs : SearchFS) (st : HitStream) :
    (search_papers fs st).2.dirExists = true := by
  by_cases h : st.fails = true <;> simp [search_papers, h]

/-- C2 counterexample: when the corpus root directory itself does not exist,
`os.listdir(PAPER_DIR)` at source line 85 raises `FileNotFoundError`, which
the function does not catch (its `try` only guards the per-file open/parse),
so resolve raises instead of returning the not-found string. -/
theorem extract_info_missing_root_raises :
    (extract_info ⟨false, []⟩ "2301.00001v1").1 = .error "FileNotFoundError" :=
  rfl

/-- C2 amended: provided the corpus root directory exists, resolving an id
contained in no store returns the human-readable not-found message and never
raises, whatever mix of non-directories, unreadable and valid stores the
scan encounters. -/
theorem extract_info_unknown_id_not_found (fs : CorpusFS) (pid : String)
    (hroot : fs.rootExists = true)
    (habsent : ∀ e ∈ fs.entries, ∀ m : Store, e.file = some (some m) → m pid = none) :
    (extract_info fs pid).1 = .ok (.message (notFoundMsg pid)) := by
  have h1 : (scanEntries pid fs.entries fs).1 = none :=
    scanEntries_all_absent pid fs.entries fs habsent
  simp only [extract_info, hroot, if_true]
  cases hs : scanEntries pid fs.entries fs with
  | mk r fs2 =>
    rw [hs] at h1
    simp only at h1
    subst h1
    rfl

/-- Witness for C2 amended, on the concrete sample corpus and an id stored
nowhere. -/
theorem extract_info_unknown_id_not_found_witness :
    sampleCorpus.rootExists = true ∧
    (extract_info sampleCorpus "9999.99999v9").1 =
      .ok (.message (notFoundMsg "9999.99999v9")) := by
  refine ⟨rfl, extract_info_unknown_id_not_found sampleCorpus "9999.99999v9" rfl ?_⟩
  intro e he m hm
  simp only [sampleCorpus, List.mem_cons, List.not_mem_nil, or_false] at he
  rcases he with h | h | h
  · subst h
    simp only at hm
    injection hm with hm1
    injection hm1 with hm2
    subst hm2
    decide
  · subst h
    simp at hm
  · subst h
    simp at hm

/-- C8 counterexample: topic normalisation is `lower().replace(" ", "_")`,
which replaces only the space character — a tab survives into the derived
directory name, which therefore still contains whitespace. -/
theorem normTopic_tab_not_replaced :
    normTopic "A\tB" = "a\tb" ∧ '\t' ∈ (normTopic "A\tB").data ∧
    ('\t').isWhitespace = true := by
  refine ⟨?_, ?_, ?_⟩ <;> decide

/-- C8 amended: the derived directory name is the lowercased topic with
every occurrence of the space character (and only that whitespace character)
replaced by an underscore; the result contains no space. -/
theorem normTopic_replaces_all_spaces (topic : String) :
    (normTopic topic).data.all (fun c => c != ' ') = true := by
  rw [List.all_eq_true]
  intro c hc
  have hc2 : c ∈ (topic.data.map Char.toLower).map
      (fun c => if c = ' ' then '_' else c) := hc
  obtain ⟨a, _, ha⟩ := List.mem_map.mp hc2
  by_cases h : a = ' '
  · rw [if_pos h] at ha
    subst ha
    decide
  · rw [if_neg h] at ha
    subst ha
    simpa using h

/-- C9: a successful search returns exactly the hit ids in stream order —
the same id repeated by the collaborator appears repeatedly — and each
returned id is a key of the saved store, mapped to the record built from the
last hit in the stream bearing it. -/
theorem search_returned_ids_are_keys (fs : SearchFS) (st : HitStream)
    (hok : st.fails = false) :
    ∃ (ids : List String) (final : Store),
      (search_papers fs st).1 = .ok ids ∧
      (search_papers fs st).2.file = some (some final) ∧
      ids = st.hits.map Paper.shortId ∧
      (∀ i ∈ ids, ∃ p, lastHitFor st.hits i = some p ∧ final i = some (mkRecord p)) := by
  have hshape := search_papers_ok fs st hok
  refine ⟨st.hits.map Paper.shortId, (processHits (loadStore fs) st.hits).2,
    by rw [hshape], by rw [hshape], rfl, ?_⟩
  intro i hi
  obtain ⟨p, hp⟩ := lastHitFor_isSome st.hits i hi
  exact ⟨p, hp, by rw [processHits_snd, hp]⟩

/-- Witness for C9: a concrete stream that repeats an id, searched against an
initially empty state. -/
theorem search_returned_ids_are_keys_witness :
    (⟨[samplePaper, samplePaper2, samplePaper], false⟩ : HitStream).fails = false ∧
    ∃ (ids : List String) (final : Store),
      (search_papers ⟨false, none⟩
          ⟨[samplePaper, samplePaper2, samplePaper], false⟩).1 = .ok ids ∧
      (search_papers ⟨false, none⟩
          ⟨[samplePaper, samplePaper2, samplePaper], false⟩).2.file = some (some final) ∧
      ids = [samplePaper, samplePaper2, samplePaper].map Paper.shortId ∧
      (∀ i ∈ ids, ∃ p, lastHitFor [samplePaper, samplePaper2, samplePaper] i = some p ∧
        final i = some (mkRecord p)) :=
  ⟨rfl, search_returned_ids_are_keys ⟨false, none⟩
    ⟨[samplePaper, samplePaper2, samplePaper], false⟩ rfl⟩

/-- C10: resolve is read-only — the corpus state after `extract_info` equals
the state before it, whether the id is found, not found, or the scan raised
on a missing root. -/
theorem extract_info_read_only (fs : CorpusFS) (pid : String) :
    (extract_info fs pid).2 = fs := by
  by_cases hroot : fs.rootExists = true
  · simp only [extract_info, hroot, if_true]
    cases hs : scanEntries pid fs.entries fs with
    | mk r fs2 =>
      have h2 : fs2 = fs := by
        have hst := scanEntries_state pid fs.entries fs
        rw [hs] at hst
        exact hst
      cases r <;> simpa using h2
  · simp [extract_info, hroot]

/-- C4: on an existing, parseable document the extraction writes the
concatenation, in page order, of each page's contribution — a page yielding
text contributes that text followed by exactly two newlines, a page yielding
no extractable text contributes nothing; in particular a document whose page
k extracts to "Page k" yields "Page 1\n\nPage 2\n\n...Page N\n\n". -/
theorem extract_text_page_concatenation (fs : PdfFS) (pages : List String)
    (n : Nat) (hex : fs.fileExists = true) :
    (fs.parse = some pages →
      (extract_text_paper fs).1 = some (stemOf fs.path ++ ".txt") ∧
      (extract_text_paper fs).2.outFile = some (specConcat pages)) ∧
    (fs.parse = some (pagesUpTo n) →
      (extract_text_paper fs).2.outFile = some (expectedOutput n)) := by
  constructor
  · intro hp
    simp [extract_text_paper, hex, hp, joinPages_eq_specConcat]
  · intro hp
    simp [extract_text_paper, hex, hp, joinPages_eq_specConcat,
      specConcat_pagesUpTo]

/-- Witness for C4 at a concrete three-page document, with the expected
output spelt out. -/
theorem extract_text_page_concatenation_witness :
    (⟨"paper.pdf", true, some (pagesUpTo 3), none⟩ : PdfFS).fileExists = true ∧
    (⟨"paper.pdf", true, some (pagesUpTo 3), none⟩ : PdfFS).parse =
      some (pagesUpTo 3) ∧
    (extract_text_paper ⟨"paper.pdf", true, some (pagesUpTo 3), none⟩).2.outFile =
      some (expectedOutput 3) ∧
    expectedOutput 3 = "Page 1\n\nPage 2\n\nPage 3\n\n" :=
  ⟨rfl, rfl,
    (extract_text_page_concatenation ⟨"paper.pdf", true, some (pagesUpTo 3), none⟩
      (pagesUpTo 3) 3 rfl).2 rfl,
    by decide⟩

/-- C5: extraction on a path that is not an existing file, or on a file that
fails to parse as a PDF (`PdfReadError`), returns the null result and leaves
the state unchanged — in particular no output file is written, since the
write at source lines 144–145 is only reached after a successful parse. -/
theorem extract_text_failure_no_write (fs : PdfFS)
    (h : fs.fileExists = false ∨ fs.parse = none) :
    extract_text_paper fs = (none, fs) := by
  rcases h with h | h
  · simp [extract_text_paper, h]
  · by_cases hex : fs.fileExists = true <;> simp [extract_text_paper, hex, h]

/-- Witness for C5: a missing path and a corrupted document, each returning
null with the state unchanged. -/
theorem extract_text_failure_no_write_witness :
    ((⟨"missing.pdf", false, none, none⟩ : PdfFS).fileExists = false ∨
      (⟨"missing.pdf", false, none, none⟩ : PdfFS).parse = none) ∧
    extract_text_paper ⟨"missing.pdf", false, none, none⟩ =
      (none, ⟨"missing.pdf", false, none, none⟩) ∧
    ((⟨"broken.pdf", true, none, none⟩ : PdfFS).parse = none) ∧
    extract_text_paper ⟨"broken.pdf", true, none, none⟩ =
      (none, ⟨"broken.pdf", true, none, none⟩) :=
  ⟨Or.inl rfl,
    extract_text_failure_no_write ⟨"missing.pdf", false, none, none⟩ (Or.inl rfl),
    rfl,
    extract_text_failure_no_write ⟨"broken.pdf", true, none, none⟩ (Or.inr rfl)⟩

end ResearchServer
